import Mathlib

/-!
Verification of the geometry-nodes attribute/execution core excerpted from
Blender (`node_geo_mesh_primitive_uv_sphere.cc` and
`GeoNodeExecParams` in `node_geo_exec` translation unit).

The development is a shallow embedding: each C++ function relevant to the
checked properties is translated into an executable Lean definition.  C++
`int`/`int64_t` values are modelled as `Int` (parameter ranges are far from
any overflow).  Floating-point vertex coordinates and UVs are outside the
model; meshes are modelled by their topology element counts, which is what
the checked properties are about.  Diagnostics (`error_message_add`) are
modelled as lists of `(severity, message)` records, emitted only when a
logger is attached, exactly like the C++ early-return on a null logger.
-/

namespace BlenderGeo

/-- Severity of a node diagnostic, mirroring `NodeWarningType`. -/
inductive NodeWarningType where
  | Error
  | Warning
  | Info
  deriving DecidableEq, Repr

/-- One diagnostic record logged by `error_message_add`:
the severity together with the message text. -/
structure Diagnostic where
  wtype : NodeWarningType
  message : String
  deriving DecidableEq, Repr

/-- `GeoNodeExecParams::error_message_add`: if no logger is attached this is
a no-op, otherwise one record is appended to the thread-local log.  The log
is modelled functionally: the function returns the list of records the call
appends. -/
def error_message_add (logger : Bool) (t : NodeWarningType) (message : String) :
    List Diagnostic :=
  if logger then [⟨t, message⟩] else []

/-! ## UV-sphere primitive builder -/

/-- `sphere_vert_total` from `node_geo_mesh_primitive_uv_sphere.cc`. -/
def sphere_vert_total (segments rings : Int) : Int :=
  segments * (rings - 1) + 2

/-- `sphere_edge_total` from `node_geo_mesh_primitive_uv_sphere.cc`. -/
def sphere_edge_total (segments rings : Int) : Int :=
  segments * (rings * 2 - 1)

/-- `sphere_corner_total` from `node_geo_mesh_primitive_uv_sphere.cc`. -/
def sphere_corner_total (segments rings : Int) : Int :=
  4 * segments * (rings - 2) + 3 * segments * 2

/-- `sphere_face_total` from `node_geo_mesh_primitive_uv_sphere.cc`. -/
def sphere_face_total (segments rings : Int) : Int :=
  segments * (rings - 2) + segments * 2

/-- A mesh, modelled by its topology element counts (the sizes passed to
`BKE_mesh_new_nomain`).  Vertex positions, normals and UVs are
floating-point data outside this model. -/
structure MeshM where
  totvert : Int
  totedge : Int
  totloop : Int
  totpoly : Int
  deriving DecidableEq, Repr

/-- The component types of `GeometryComponentType`. -/
inductive GeometryComponentType where
  | Mesh
  | PointCloud
  | Instances
  | Volume
  | Curve
  deriving DecidableEq, Repr

/-- A geometry component; only the mesh component carries modelled data
(its element counts). -/
inductive GeometryComponentM where
  | mesh (m : MeshM)
  | pointCloud
  | curve
  | volume
  | instances
  deriving DecidableEq, Repr

/-- The `GeometryComponentType` tag of a component. -/
def GeometryComponentM.ctype : GeometryComponentM → GeometryComponentType
  | .mesh _ => .Mesh
  | .pointCloud => .PointCloud
  | .curve => .Curve
  | .volume => .Volume
  | .instances => .Instances

/-- A `GeometrySet`: a collection of typed geometry components. -/
structure GeometrySetM where
  components : List GeometryComponentM
  deriving DecidableEq, Repr

/-- Modelled from the spec: `GeometrySet::has_instances` (the implementation
is not part of the excerpt); true when an instances component is present. -/
def GeometrySetM.has_instances (gs : GeometrySetM) : Bool :=
  gs.components.any (fun c => c.ctype == .Instances)

/-- Modelled from the spec: `GeometrySet::has_realized_data` (the
implementation is not part of the excerpt); realized means any component
other than instances. -/
def GeometrySetM.has_realized_data (gs : GeometrySetM) : Bool :=
  gs.components.any (fun c => c.ctype != .Instances)

/-- Modelled from the spec: `GeometrySet::gather_component_types`
(implementation not in the excerpt): the ordered list of component types
present; with `include_instances = false` the instances type is dropped.
Recursion into instances cannot add new component kinds in this model. -/
def GeometrySetM.gather_component_types (gs : GeometrySetM)
    (include_instances : Bool) (_recurse_into_instances : Bool) :
    List GeometryComponentType :=
  (gs.components.map GeometryComponentM.ctype).filter
    (fun t => include_instances || t != .Instances)

/-- `GeometrySet::create_with_mesh`: a geometry set wrapping a single mesh
component. -/
def GeometrySetM.create_with_mesh (m : MeshM) : GeometrySetM :=
  ⟨[.mesh m]⟩

/-- The empty `GeometrySet()`. -/
def GeometrySetM.empty : GeometrySetM := ⟨[]⟩

/-- `create_uv_sphere_mesh`: allocates the mesh with the exact element
counts returned by the four total functions and fills the topology arrays
(positions/edges/loops are deterministic fills not carrying information
beyond the counts in this model). -/
def create_uv_sphere_mesh (segments rings : Int) : MeshM :=
  ⟨sphere_vert_total segments rings,
   sphere_edge_total segments rings,
   sphere_corner_total segments rings,
   sphere_face_total segments rings⟩

/-- An integer socket declaration as produced by
`NodeDeclarationBuilder::add_input<decl::Int>` with its builder calls. -/
structure IntSocketDecl where
  name : String
  default_value : Int
  min : Int
  max : Int
  deriving DecidableEq, Repr

/-- The "Segments" socket of `geo_node_mesh_primitive_uv_shpere_declare`. -/
def uv_sphere_segments_decl : IntSocketDecl :=
  ⟨"Segments", 32, 3, 1024⟩

/-- The "Rings" socket of `geo_node_mesh_primitive_uv_shpere_declare`. -/
def uv_sphere_rings_decl : IntSocketDecl :=
  ⟨"Rings", 16, 2, 1024⟩

/-- `geo_node_mesh_primitive_uv_sphere_exec`: validates the extracted
segment/ring counts; on invalid input emits the matching Info diagnostics
and sets the "Mesh" output to an empty geometry set; otherwise builds the
sphere mesh and outputs it.  The returned pair is (value set for the "Mesh"
output, diagnostics emitted). -/
def geo_node_mesh_primitive_uv_sphere_exec (logger : Bool)
    (segments_num rings_num : Int) : GeometrySetM × List Diagnostic :=
  if segments_num < 3 ∨ rings_num < 2 then
    (GeometrySetM.empty,
      (if segments_num < 3 then
        error_message_add logger .Info "Segments must be at least 3"
      else []) ++
      (if rings_num < 3 then
        error_message_add logger .Info "Rings must be at least 3"
      else []))
  else
    (GeometrySetM.create_with_mesh (create_uv_sphere_mesh segments_num rings_num), [])

/-! ## Typed values and sockets -/

/-- The `CustomDataType` tags used by the excerpt. -/
inductive CustomDataType where
  | CD_PROP_FLOAT
  | CD_PROP_FLOAT3
  | CD_PROP_COLOR
  | CD_PROP_BOOL
  | CD_PROP_INT32
  deriving DecidableEq, Repr

/-- A type-erased value (the contents of a `CPPType` buffer), as a closed
tagged variant over the primitive types the excerpt handles.  Scalar float
payloads are opaque integer encodings: no floating-point arithmetic is
performed on them in the modelled paths. -/
inductive GValue where
  | vfloat (bits : Int)
  | vint (v : Int)
  | vfloat3 (x y z : Int)
  | vcolor (r g b a : Int)
  | vbool (b : Bool)
  | vstring (s : String)
  deriving DecidableEq, Repr

/-- The string payload of a value bound to a string socket
(`get_input<std::string>` on a well-typed binding). -/
def GValue.asString : GValue → String
  | .vstring s => s
  | _ => ""

/-- Modelled from the spec: `CPPType::default_value` via
`bke::custom_data_type_to_cpp_type` (not part of the excerpt); the
zero/default value of each data type. -/
def cpp_type_default_value : CustomDataType → GValue
  | .CD_PROP_FLOAT => .vfloat 0
  | .CD_PROP_FLOAT3 => .vfloat3 0 0 0
  | .CD_PROP_COLOR => .vcolor 0 0 0 0
  | .CD_PROP_BOOL => .vbool false
  | .CD_PROP_INT32 => .vint 0

/-- Modelled from the spec: `DataTypeConversions::convert_to_uninitialized`
of the implicit conversion registry (`NOD_type_conversions`, not part of
the excerpt).  Equal types copy directly; a scalar broadcasts to all vector
components; a vector projects to its first component; booleans convert
through 0/1. -/
def convert_to_uninitialized (src dst : CustomDataType) (v : GValue) : GValue :=
  if src = dst then v
  else
    match dst, v with
    | .CD_PROP_FLOAT, .vint n => .vfloat n
    | .CD_PROP_FLOAT, .vfloat3 x _ _ => .vfloat x
    | .CD_PROP_FLOAT, .vcolor r _ _ _ => .vfloat r
    | .CD_PROP_FLOAT, .vbool b => .vfloat (if b then 1 else 0)
    | .CD_PROP_FLOAT3, .vfloat f => .vfloat3 f f f
    | .CD_PROP_FLOAT3, .vint n => .vfloat3 n n n
    | .CD_PROP_FLOAT3, .vcolor r g b _ => .vfloat3 r g b
    | .CD_PROP_FLOAT3, .vbool b => let f : Int := if b then 1 else 0; .vfloat3 f f f
    | .CD_PROP_COLOR, .vfloat f => .vcolor f f f 1
    | .CD_PROP_COLOR, .vint n => .vcolor n n n 1
    | .CD_PROP_COLOR, .vfloat3 x y z => .vcolor x y z 1
    | .CD_PROP_COLOR, .vbool b => let f : Int := if b then 1 else 0; .vcolor f f f 1
    | .CD_PROP_BOOL, .vfloat f => .vbool (f != 0)
    | .CD_PROP_BOOL, .vint n => .vbool (n != 0)
    | .CD_PROP_BOOL, .vfloat3 x y z => .vbool (x != 0 || y != 0 || z != 0)
    | .CD_PROP_BOOL, .vcolor r g b a => .vbool (r != 0 || g != 0 || b != 0 || a != 0)
    | .CD_PROP_INT32, .vfloat f => .vint f
    | .CD_PROP_INT32, .vfloat3 x _ _ => .vint x
    | .CD_PROP_INT32, .vcolor r _ _ _ => .vint r
    | .CD_PROP_INT32, .vbool b => .vint (if b then 1 else 0)
    | _, w => w

/-- The socket types (`eNodeSocketDatatype`) appearing in the excerpt. -/
inductive SocketType where
  | SOCK_STRING
  | SOCK_FLOAT
  | SOCK_INT
  | SOCK_VECTOR
  | SOCK_RGBA
  | SOCK_BOOLEAN
  | SOCK_GEOMETRY
  deriving DecidableEq, Repr

/-- The `CPPType` a socket's values use in geometry nodes
(`bNodeSocketType::get_geometry_nodes_cpp_type`), as a tag. -/
inductive CPPTypeTag where
  | tfloat
  | tint
  | tfloat3
  | tcolor
  | tbool
  | tstring
  | tgeometry
  deriving DecidableEq, Repr

/-- `get_geometry_nodes_cpp_type` for the socket types of the excerpt. -/
def socket_geometry_nodes_cpp_type : SocketType → CPPTypeTag
  | .SOCK_STRING => .tstring
  | .SOCK_FLOAT => .tfloat
  | .SOCK_INT => .tint
  | .SOCK_VECTOR => .tfloat3
  | .SOCK_RGBA => .tcolor
  | .SOCK_BOOLEAN => .tbool
  | .SOCK_GEOMETRY => .tgeometry

/-- An input socket of the node: its identifier, its UI name, its type, and
whether it is available (the negation of the `SOCK_UNAVAIL` flag). -/
structure SocketModel where
  identifier : String
  name : String
  stype : SocketType
  available : Bool
  deriving DecidableEq, Repr

/-- The geometry-socket declaration flags of `decl::Geometry` consulted by
`check_input_geometry_set`. -/
structure GeometryDecl where
  only_realized_data : Bool
  only_instances : Bool
  supported_types : List GeometryComponentType
  deriving DecidableEq, Repr

/-- The per-invocation state of `GeoNodeExecParams` / its provider needed by
the modelled member functions: the node's input sockets, the value bound to
each input identifier, which identifiers still have their value
(`can_get_input`), and whether a logger is attached. -/
structure GeoParamsModel where
  inputs : List SocketModel
  input_value : String → GValue
  can_get : String → Bool
  logger : Bool

/-! ## Attribute views and geometry components -/

/-- The attribute domains (`AttributeDomain`). -/
inductive AttributeDomain where
  | Point
  | Edge
  | Corner
  | Face
  | Curve
  | Instance
  deriving DecidableEq, Repr

/-- Attribute metadata (`AttributeMetaData`). -/
structure AttributeMetaData where
  domain : AttributeDomain
  data_type : CustomDataType
  deriving DecidableEq, Repr

/-- A generic virtual array (`GVArray`): either a single-value broadcast of
a fixed size (`GVArray_For_SingleValue`) or a materialized per-element
array. -/
inductive GVArrayModel where
  | singleValue (t : CustomDataType) (size : Int) (value : GValue)
  | array (t : CustomDataType) (data : List GValue)
  deriving DecidableEq, Repr

/-- The reported size of a virtual array. -/
def GVArrayModel.size : GVArrayModel → Int
  | .singleValue _ n _ => n
  | .array _ data => data.length

/-- Indexed read from a virtual array; a single-value broadcast yields the
same value at every index. -/
def GVArrayModel.get : GVArrayModel → Nat → GValue
  | .singleValue _ _ v, _ => v
  | .array t data, i => data.getD i (cpp_type_default_value t)

/-- A geometry component as seen by the modelled `GeoNodeExecParams`
members: its per-domain element counts and its attribute lookup
interfaces (the attribute-storage contract of the spec, left abstract). -/
structure GeometryComponentModel where
  attribute_domain_size : AttributeDomain → Int
  attribute_try_get_for_read :
    String → AttributeDomain → CustomDataType → Option GVArrayModel
  attribute_get_meta_data : String → Option AttributeMetaData

/-! ## GeoNodeExecParams members -/

/-- The `switch (type)` building the human name for the unsupported-type
message: the name appended to the message, and whether the
`BLI_assert_unreachable` case (instances) was reached. -/
def unsupported_type_name : GeometryComponentType → String × Bool
  | .Mesh => ("Mesh", false)
  | .PointCloud => ("Point Cloud", false)
  | .Instances => ("", true)
  | .Volume => ("Volume", false)
  | .Curve => ("Curve", false)

/-- The `for (const GeometryComponentType type : types_in_geometry)` loop of
`check_input_geometry_set`: instances and supported types are skipped
(`continue`); every other type emits one unsupported-type diagnostic.  The
boolean records whether any iteration reached `BLI_assert_unreachable`. -/
def unsupported_type_check (logger : Bool)
    (supported_types : List GeometryComponentType) :
    List GeometryComponentType → List Diagnostic × Bool
  | [] => ([], false)
  | t :: rest =>
    let tail := unsupported_type_check logger supported_types rest
    if t = .Instances then tail
    else if supported_types.contains t then tail
    else
      (error_message_add logger .Info
        ("Input geometry has unsupported type: " ++ (unsupported_type_name t).1)
        ++ tail.1,
       (unsupported_type_name t).2 || tail.2)

/-- `GeoNodeExecParams::check_input_geometry_set`, applied to the
geometry-socket declaration found for the identifier (`none` models a
failed `dynamic_cast` to `decl::Geometry`, which returns silently).  The
result pairs the emitted diagnostics with whether the
`BLI_assert_unreachable` in the unsupported-type switch was reached. -/
def check_input_geometry_set (logger : Bool) (geo_decl : Option GeometryDecl)
    (geometry_set : GeometrySetM) : List Diagnostic × Bool :=
  match geo_decl with
  | none => ([], false)
  | some d =>
    let realized_diags :=
      if d.only_realized_data then
        if geometry_set.has_instances then
          error_message_add logger .Info "Instances in input geometry are ignored"
        else []
      else []
    let instances_diags :=
      if d.only_instances then
        if geometry_set.has_realized_data then
          error_message_add logger .Info "Realized data in input geometry is ignored"
        else []
      else []
    if d.supported_types.isEmpty then
      (realized_diags ++ instances_diags, false)
    else
      let loop := unsupported_type_check logger d.supported_types
        (geometry_set.gather_component_types true true)
      (realized_diags ++ instances_diags ++ loop.1, loop.2)

/-- `GeoNodeExecParams::find_available_socket`: the first available input
socket whose UI name matches, else `none` (null). -/
def find_available_socket (p : GeoParamsModel) (name : String) :
    Option SocketModel :=
  p.inputs.find? (fun s => s.available && s.name == name)

/-- The result of `get_input_attribute`: the returned virtual array, the
diagnostics emitted on the way, and whether a `BLI_assert` failed (debug
builds halt there; release builds continue as modelled). -/
structure AttrResult where
  view : GVArrayModel
  diags : List Diagnostic
  assert_failed : Bool
  deriving DecidableEq, Repr

/-- `GeoNodeExecParams::get_input_attribute`: resolves a named socket to a
uniform attribute view — a present named attribute for string sockets, or
a single-value broadcast of the (converted) literal or of the default
value. -/
def get_input_attribute (p : GeoParamsModel) (name : String)
    (component : GeometryComponentModel) (domain : AttributeDomain)
    (type : CustomDataType) (default_value : Option GValue) : AttrResult :=
  let found_socket := find_available_socket p name
  let domain_size := component.attribute_domain_size domain
  let dv := default_value.getD (cpp_type_default_value type)
  match found_socket with
  | none =>
    -- BLI_assert(found_socket != nullptr) fails; the null check then
    -- returns the broadcast default.
    ⟨.singleValue type domain_size dv, [], true⟩
  | some s =>
    if s.stype = .SOCK_STRING then
      let aname := (p.input_value s.identifier).asString
      match component.attribute_try_get_for_read aname domain type with
      | some attr => ⟨attr, [], false⟩
      | none =>
        let diags :=
          if aname ≠ "" ∧ component.attribute_domain_size domain ≠ 0 then
            error_message_add p.logger .Error
              ("No attribute with name \"" ++ aname ++ "\"")
          else []
        ⟨.singleValue type domain_size dv, diags, false⟩
    else if s.stype = .SOCK_FLOAT then
      ⟨.singleValue type domain_size
        (convert_to_uninitialized .CD_PROP_FLOAT type (p.input_value s.identifier)),
       [], false⟩
    else if s.stype = .SOCK_INT then
      ⟨.singleValue type domain_size
        (convert_to_uninitialized .CD_PROP_INT32 type (p.input_value s.identifier)),
       [], false⟩
    else if s.stype = .SOCK_VECTOR then
      ⟨.singleValue type domain_size
        (convert_to_uninitialized .CD_PROP_FLOAT3 type (p.input_value s.identifier)),
       [], false⟩
    else if s.stype = .SOCK_RGBA then
      ⟨.singleValue type domain_size
        (convert_to_uninitialized .CD_PROP_COLOR type (p.input_value s.identifier)),
       [], false⟩
    else
      -- BLI_assert(false); fall back to the broadcast default.
      ⟨.singleValue type domain_size dv, [], true⟩

/-- The result of `get_input_attribute_data_type`: the returned data type
and whether the trailing `BLI_assert(false)` was reached. -/
structure DataTypeResult where
  dtype : CustomDataType
  assert_failed : Bool
  deriving DecidableEq, Repr

/-- `GeoNodeExecParams::get_input_attribute_data_type`: the element type an
attribute-valued input would produce, without materializing it. -/
def get_input_attribute_data_type (p : GeoParamsModel) (name : String)
    (component : GeometryComponentModel) (default_type : CustomDataType) :
    DataTypeResult :=
  match find_available_socket p name with
  | none => ⟨default_type, true⟩
  | some s =>
    if s.stype = .SOCK_STRING then
      let aname := (p.input_value s.identifier).asString
      match component.attribute_get_meta_data aname with
      | some info => ⟨info.data_type, false⟩
      | none => ⟨default_type, false⟩
    else if s.stype = .SOCK_FLOAT then ⟨.CD_PROP_FLOAT, false⟩
    else if s.stype = .SOCK_VECTOR then ⟨.CD_PROP_FLOAT3, false⟩
    else if s.stype = .SOCK_RGBA then ⟨.CD_PROP_COLOR, false⟩
    else if s.stype = .SOCK_BOOLEAN then ⟨.CD_PROP_BOOL, false⟩
    else ⟨default_type, true⟩

/-- The branch `GeoNodeExecParams::check_input_access` ends in: `ok` is the
silent fall-through; every other constructor is a branch that prints its
diagnostic context and reaches `BLI_assert_unreachable` (a halt in a debug
build). -/
inductive CheckInputResult where
  | ok
  | socketNotFound
  | socketDisabled
  | valueConsumed
  | typeMismatch
  deriving DecidableEq, Repr

/-- Whether a `check_input_access` outcome is one of the
assertion-failure (halt) branches. -/
def CheckInputResult.halts : CheckInputResult → Bool
  | .ok => false
  | _ => true

/-- `GeoNodeExecParams::check_input_access`: looks the identifier up among
all input sockets (regardless of availability) and reports which contract
check, if any, fails. -/
def check_input_access (p : GeoParamsModel) (identifier : String)
    (requested_type : Option CPPTypeTag) : CheckInputResult :=
  match p.inputs.find? (fun s => s.identifier == identifier) with
  | none => .socketNotFound
  | some s =>
    if !s.available then .socketDisabled
    else if !p.can_get identifier then .valueConsumed
    else
      match requested_type with
      | none => .ok
      | some t =>
        if t ≠ socket_geometry_nodes_cpp_type s.stype then .typeMismatch
        else .ok

/-! ## Concrete fixtures used by witnesses and counterexamples -/

/-- An available string socket named "Attr". -/
def attr_socket : SocketModel := ⟨"Attr", "Attr", .SOCK_STRING, true⟩

/-- Params whose "Attr" string socket is bound to the name "missing". -/
def params_missing_attr : GeoParamsModel :=
  ⟨[attr_socket], fun _ => .vstring "missing", fun _ => true, true⟩

/-- Params whose "Attr" string socket is bound to the empty string. -/
def params_blank_attr : GeoParamsModel :=
  ⟨[attr_socket], fun _ => .vstring "", fun _ => true, true⟩

/-- Params with no input sockets at all (every name is unbound). -/
def params_no_sockets : GeoParamsModel :=
  ⟨[], fun _ => .vstring "", fun _ => true, true⟩

/-- Params whose single input has already been extracted
(`can_get_input` is false for every identifier). -/
def params_consumed : GeoParamsModel :=
  ⟨[attr_socket], fun _ => .vstring "x", fun _ => false, true⟩

/-- An available float socket named "A" bound to a literal. -/
def params_float_sock : GeoParamsModel :=
  ⟨[⟨"A", "A", .SOCK_FLOAT, true⟩], fun _ => .vfloat 2, fun _ => true, true⟩

/-- An available vector socket named "A" bound to a literal. -/
def params_vector_sock : GeoParamsModel :=
  ⟨[⟨"A", "A", .SOCK_VECTOR, true⟩], fun _ => .vfloat3 1 2 3, fun _ => true, true⟩

/-- An available color socket named "A" bound to a literal. -/
def params_color_sock : GeoParamsModel :=
  ⟨[⟨"A", "A", .SOCK_RGBA, true⟩], fun _ => .vcolor 1 0 0 1, fun _ => true, true⟩

/-- An available boolean socket named "A" bound to a literal. -/
def params_boolean_sock : GeoParamsModel :=
  ⟨[⟨"A", "A", .SOCK_BOOLEAN, true⟩], fun _ => .vbool true, fun _ => true, true⟩

/-- An available integer socket named "A" bound to a literal. -/
def params_int_sock : GeoParamsModel :=
  ⟨[⟨"A", "A", .SOCK_INT, true⟩], fun _ => .vint 7, fun _ => true, true⟩

/-- A component with five elements on every domain and no stored
attributes. -/
def component_five_points : GeometryComponentModel :=
  ⟨fun _ => 5, fun _ _ _ => none, fun _ => none⟩

/-! ## Helper lemmas about the unsupported-type loop -/

theorem unsupported_type_check_assert_false (logger : Bool)
    (supported : List GeometryComponentType)
    (types : List GeometryComponentType) :
    (unsupported_type_check logger supported types).2 = false := by
  induction types with
  | nil => rfl
  | cons t rest ih =>
    unfold unsupported_type_check
    cases t <;> simp [unsupported_type_name, ih] <;> split <;> simp [ih]

theorem unsupported_type_check_all_info (logger : Bool)
    (supported : List GeometryComponentType)
    (types : List GeometryComponentType) :
    ((unsupported_type_check logger supported types).1.all
      (fun dg => dg.wtype == .Info)) = true := by
  induction types with
  | nil => rfl
  | cons t rest ih =>
    unfold unsupported_type_check
    split
    · exact ih
    · split
      · exact ih
      · simp only [List.all_append, ih, Bool.and_true]
        unfold error_message_add
        split <;> simp

theorem unsupported_type_check_skips_instances (logger : Bool)
    (supported : List GeometryComponentType)
    (types : List GeometryComponentType) :
    unsupported_type_check logger supported types =
      unsupported_type_check logger supported
        (types.filter (fun t => t != .Instances)) := by
  induction types with
  | nil => rfl
  | cons t rest ih =>
    by_cases h : t = .Instances
    · subst h
      have h2 : List.filter (fun x => x != GeometryComponentType.Instances)
          (GeometryComponentType.Instances :: rest) =
          List.filter (fun x => x != GeometryComponentType.Instances) rest := by
        simp
      rw [h2, ← ih]
      rfl
    · have hb : (t != GeometryComponentType.Instances) = true := by simpa using h
      have h2 : List.filter (fun x => x != GeometryComponentType.Instances)
          (t :: rest) =
          t :: List.filter (fun x => x != GeometryComponentType.Instances) rest := by
        simp [List.filter_cons, hb]
      rw [h2]
      simp only [unsupported_type_check]
      rw [if_neg h, if_neg h, ih]

theorem unsupported_type_check_message_shapes (logger : Bool)
    (supported : List GeometryComponentType)
    (types : List GeometryComponentType) :
    ((unsupported_type_check logger supported types).1.all (fun dg =>
      ["Input geometry has unsupported type: Mesh",
       "Input geometry has unsupported type: Point Cloud",
       "Input geometry has unsupported type: Volume",
       "Input geometry has unsupported type: Curve"].contains dg.message)) =
      true := by
  induction types with
  | nil => rfl
  | cons t rest ih =>
    unfold unsupported_type_check
    split
    · exact ih
    · split
      · exact ih
      · simp only [List.all_append, ih, Bool.and_true]
        unfold error_message_add
        split
        · cases t <;> simp_all [unsupported_type_name]
        · simp

/-! ## Claims -/

/-- C1: for segments=32, rings=16 the UV-sphere builder is claimed to
produce 482 vertices, 992 edges and 480 faces.  Counterexample: the face
total the code computes at (32, 16) is `32*14 + 32*2 = 512`, not 480. -/
theorem C1_faces_counterexample :
    (create_uv_sphere_mesh 32 16).totpoly = 512 ∧
    sphere_face_total 32 16 ≠ 480 := by
  exact ⟨rfl, by decide⟩

/-- C1 (amended): for segments=32, rings=16 the UV-sphere node builds a
mesh with 482 vertices, 992 edges, 1984 corners and 512 faces, emitting no
diagnostics; the closed-form totals at (32, 16) are 482, 992 and 512. -/
theorem C1_totals_amended :
    geo_node_mesh_primitive_uv_sphere_exec true 32 16 =
      (GeometrySetM.create_with_mesh ⟨482, 992, 1984, 512⟩, []) ∧
    sphere_vert_total 32 16 = 482 ∧
    sphere_edge_total 32 16 = 992 ∧
    sphere_face_total 32 16 = 512 := by
  refine ⟨?_, by decide, by decide, by decide⟩
  rfl

/-- C3: executing the UV-sphere node with segments=2 and rings=16 sets the
"Mesh" output to the empty geometry set and emits exactly one Info
diagnostic, "Segments must be at least 3"; the parameter is not clamped
(no mesh is built). -/
theorem C3_segments_below_minimum :
    geo_node_mesh_primitive_uv_sphere_exec true 2 16 =
      (GeometrySetM.empty, [⟨.Info, "Segments must be at least 3"⟩]) ∧
    (geo_node_mesh_primitive_uv_sphere_exec true 2 16).2.length = 1 ∧
    uv_sphere_rings_decl.default_value = 16 := by
  exact ⟨rfl, rfl, rfl⟩

/-- C10: the Rings socket declares minimum 2; the invalid branch is taken
iff segments < 3 or rings < 2; rings=2 with segments ≥ 3 builds a mesh
normally with no diagnostics; segments=2 together with rings=2 yields two
Info diagnostics (segments and rings messages). -/
theorem C10_rings_minimum_branch (s r : Int) :
    uv_sphere_rings_decl.min = 2 ∧
    ((geo_node_mesh_primitive_uv_sphere_exec true s r).1 = GeometrySetM.empty ↔
      s < 3 ∨ r < 2) ∧
    (3 ≤ s → geo_node_mesh_primitive_uv_sphere_exec true s 2 =
      (GeometrySetM.create_with_mesh (create_uv_sphere_mesh s 2), [])) ∧
    geo_node_mesh_primitive_uv_sphere_exec true 2 2 =
      (GeometrySetM.empty,
        [⟨.Info, "Segments must be at least 3"⟩,
         ⟨.Info, "Rings must be at least 3"⟩]) := by
  refine ⟨rfl, ?_, ?_, rfl⟩
  · unfold geo_node_mesh_primitive_uv_sphere_exec
    by_cases h : s < 3 ∨ r < 2
    · simp [h]
    · simp [h, GeometrySetM.create_with_mesh, GeometrySetM.empty]
  · intro hs
    unfold geo_node_mesh_primitive_uv_sphere_exec
    rw [if_neg (by omega : ¬(s < 3 ∨ (2 : Int) < 2))]

/-- C10 witness: the statement instantiated at segments=5, rings=7, with
the mesh-building hypothesis discharged. -/
theorem C10_rings_minimum_branch_witness :
    uv_sphere_rings_decl.min = 2 ∧
    geo_node_mesh_primitive_uv_sphere_exec true 5 2 =
      (GeometrySetM.create_with_mesh (create_uv_sphere_mesh 5 2), []) ∧
    ((geo_node_mesh_primitive_uv_sphere_exec true 5 7).1 = GeometrySetM.empty ↔
      (5 : Int) < 3 ∨ (7 : Int) < 2) ∧
    (geo_node_mesh_primitive_uv_sphere_exec true 2 2).2.length = 2 := by
  refine ⟨(C10_rings_minimum_branch 5 7).1,
    (C10_rings_minimum_branch 5 7).2.2.1 (by decide),
    (C10_rings_minimum_branch 5 7).2.1, ?_⟩
  rw [(C10_rings_minimum_branch 5 7).2.2.2]
  rfl

theorem check_input_geometry_set_no_assert (logger : Bool)
    (geo_decl : Option GeometryDecl) (gs : GeometrySetM) :
    (check_input_geometry_set logger geo_decl gs).2 = false := by
  cases geo_decl with
  | none => rfl
  | some d =>
    simp only [check_input_geometry_set]
    split
    · rfl
    · exact unsupported_type_check_assert_false logger d.supported_types _

theorem check_input_geometry_set_all_info (logger : Bool)
    (geo_decl : Option GeometryDecl) (gs : GeometrySetM) :
    ((check_input_geometry_set logger geo_decl gs).1.all
      (fun dg => dg.wtype == .Info)) = true := by
  cases geo_decl with
  | none => rfl
  | some d =>
    simp only [check_input_geometry_set, error_message_add]
    (repeat' split) <;>
      simp [List.all_append, unsupported_type_check_all_info]

/-- C4: `check_input_geometry_set` never reaches its assert, emits only
Info-severity diagnostics, on a mesh+instances geometry against
`only_realized_data=true` (other flags default) emits exactly the
instances-ignored warning, and all three checks can fire together for a
single input. -/
theorem C4_constraint_checks_independent (logger : Bool)
    (geo_decl : Option GeometryDecl) (gs : GeometrySetM) :
    (check_input_geometry_set logger geo_decl gs).2 = false ∧
    ((check_input_geometry_set logger geo_decl gs).1.all
      (fun dg => dg.wtype == .Info)) = true ∧
    check_input_geometry_set true (some ⟨true, false, []⟩)
      ⟨[.mesh ⟨0, 0, 0, 0⟩, .instances]⟩ =
      ([⟨.Info, "Instances in input geometry are ignored"⟩], false) ∧
    (check_input_geometry_set true (some ⟨true, true, [.PointCloud]⟩)
      ⟨[.mesh ⟨0, 0, 0, 0⟩, .instances]⟩).1.length = 3 :=
  ⟨check_input_geometry_set_no_assert logger geo_decl gs,
   check_input_geometry_set_all_info logger geo_decl gs,
   by decide, by decide⟩

/-- C8: the unsupported-type loop of `check_input_geometry_set` skips
instances components entirely — its output is unchanged when instances are
filtered out of the gathered types, every message it emits names one of
Mesh, Point Cloud, Volume or Curve, and a geometry holding only an
instances component triggers nothing even when `supported_types` is
non-empty and excludes instances. -/
theorem C8_instances_never_unsupported (logger : Bool)
    (supported : List GeometryComponentType)
    (types : List GeometryComponentType) :
    unsupported_type_check logger supported types =
      unsupported_type_check logger supported
        (types.filter (fun t => t != .Instances)) ∧
    ((unsupported_type_check logger supported types).1.all (fun dg =>
      ["Input geometry has unsupported type: Mesh",
       "Input geometry has unsupported type: Point Cloud",
       "Input geometry has unsupported type: Volume",
       "Input geometry has unsupported type: Curve"].contains dg.message)) =
      true ∧
    check_input_geometry_set true (some ⟨false, false, [.Mesh]⟩)
      ⟨[.instances]⟩ = ([], false) :=
  ⟨unsupported_type_check_skips_instances logger supported types,
   unsupported_type_check_message_shapes logger supported types,
   by decide⟩

/-- C4 witness: the statement instantiated at the mesh+instances geometry
and the `only_realized_data` declaration. -/
theorem C4_constraint_checks_independent_witness :
    (check_input_geometry_set true (some ⟨true, false, []⟩)
      ⟨[.mesh ⟨0, 0, 0, 0⟩, .instances]⟩).2 = false ∧
    ((check_input_geometry_set true (some ⟨true, false, []⟩)
      ⟨[.mesh ⟨0, 0, 0, 0⟩, .instances]⟩).1.all
      (fun dg => dg.wtype == .Info)) = true ∧
    check_input_geometry_set true (some ⟨true, false, []⟩)
      ⟨[.mesh ⟨0, 0, 0, 0⟩, .instances]⟩ =
      ([⟨.Info, "Instances in input geometry are ignored"⟩], false) ∧
    (check_input_geometry_set true (some ⟨true, true, [.PointCloud]⟩)
      ⟨[.mesh ⟨0, 0, 0, 0⟩, .instances]⟩).1.length = 3 :=
  C4_constraint_checks_independent true (some ⟨true, false, []⟩)
    ⟨[.mesh ⟨0, 0, 0, 0⟩, .instances]⟩

/-- C8 witness: the statement instantiated at a gathered type list holding
a mesh and an instances entry, with only point clouds supported. -/
theorem C8_instances_never_unsupported_witness :
    unsupported_type_check true [.PointCloud] [.Mesh, .Instances] =
      unsupported_type_check true [.PointCloud]
        ([.Mesh, .Instances].filter (fun t => t != .Instances)) ∧
    ((unsupported_type_check true [.PointCloud] [.Mesh, .Instances]).1.all
      (fun dg =>
        ["Input geometry has unsupported type: Mesh",
         "Input geometry has unsupported type: Point Cloud",
         "Input geometry has unsupported type: Volume",
         "Input geometry has unsupported type: Curve"].contains dg.message)) =
      true ∧
    check_input_geometry_set true (some ⟨false, false, [.Mesh]⟩)
      ⟨[.instances]⟩ = ([], false) :=
  C8_instances_never_unsupported true [.PointCloud] [.Mesh, .Instances]

/-- C2: the claim says the missing-attribute diagnostic has Info severity.
Counterexample: at a concrete string socket naming a missing attribute on
a non-empty domain, the code emits the diagnostic with Error severity. -/
theorem C2_severity_counterexample :
    (get_input_attribute params_missing_attr "Attr" component_five_points
      .Point .CD_PROP_FLOAT none).diags =
      [⟨.Error, "No attribute with name \"missing\""⟩] ∧
    NodeWarningType.Error ≠ NodeWarningType.Info := by
  exact ⟨by decide, by decide⟩

/-- C2 (amended): when a string socket names an attribute that does not
exist, the diagnostic is emitted with Error severity, only when the string
is non-empty and the domain size is non-zero; in all cases the call falls
back to a single-value broadcast of the default value. -/
theorem C2_missing_attribute_amended (p : GeoParamsModel) (name aname : String)
    (component : GeometryComponentModel) (domain : AttributeDomain)
    (type : CustomDataType) (default_value : Option GValue) (s : SocketModel)
    (hfind : find_available_socket p name = some s)
    (hstr : s.stype = .SOCK_STRING)
    (hname : (p.input_value s.identifier).asString = aname)
    (hmiss : component.attribute_try_get_for_read aname domain type = none)
    (hlog : p.logger = true) :
    (get_input_attribute p name component domain type default_value).view =
      .singleValue type (component.attribute_domain_size domain)
        (default_value.getD (cpp_type_default_value type)) ∧
    (get_input_attribute p name component domain type default_value).diags =
      (if aname ≠ "" ∧ component.attribute_domain_size domain ≠ 0 then
        [⟨.Error, "No attribute with name \"" ++ aname ++ "\""⟩]
      else []) ∧
    ((get_input_attribute p name component domain type default_value).diags.all
      (fun dg => dg.wtype == .Error)) = true := by
  have key : get_input_attribute p name component domain type default_value =
      ⟨.singleValue type (component.attribute_domain_size domain)
        (default_value.getD (cpp_type_default_value type)),
       (if aname ≠ "" ∧ component.attribute_domain_size domain ≠ 0 then
         [⟨.Error, "No attribute with name \"" ++ aname ++ "\""⟩]
       else []),
       false⟩ := by
    simp only [get_input_attribute]
    rw [hfind]
    simp [hstr, hname, hmiss, error_message_add, hlog]
  refine ⟨by rw [key], by rw [key], ?_⟩
  rw [key]
  split <;> rfl

/-- C2 witness: the amended statement instantiated at the concrete
missing-attribute fixture. -/
theorem C2_missing_attribute_amended_witness :
    (get_input_attribute params_missing_attr "Attr" component_five_points
      .Point .CD_PROP_FLOAT none).view =
      .singleValue .CD_PROP_FLOAT 5 (.vfloat 0) ∧
    (get_input_attribute params_missing_attr "Attr" component_five_points
      .Point .CD_PROP_FLOAT none).diags =
      [⟨.Error, "No attribute with name \"missing\""⟩] ∧
    ((get_input_attribute params_missing_attr "Attr" component_five_points
      .Point .CD_PROP_FLOAT none).diags.all
      (fun dg => dg.wtype == .Error)) = true := by
  have h := C2_missing_attribute_amended params_missing_attr "Attr" "missing"
    component_five_points .Point .CD_PROP_FLOAT none attr_socket
    rfl rfl rfl rfl rfl
  refine ⟨h.1, ?_, h.2.2⟩
  rw [h.2.1]
  decide

/-- C5: a string socket bound to the empty string, on a component with a
non-empty domain and no attribute under the empty name, yields a broadcast
of the default value and emits no diagnostic. -/
theorem C5_blank_reference_silent (p : GeoParamsModel) (name : String)
    (component : GeometryComponentModel) (domain : AttributeDomain)
    (type : CustomDataType) (default_value : Option GValue) (s : SocketModel)
    (hfind : find_available_socket p name = some s)
    (hstr : s.stype = .SOCK_STRING)
    (hblank : (p.input_value s.identifier).asString = "")
    (hmiss : component.attribute_try_get_for_read "" domain type = none)
    (hdom : component.attribute_domain_size domain ≠ 0) :
    get_input_attribute p name component domain type default_value =
      ⟨.singleValue type (component.attribute_domain_size domain)
        (default_value.getD (cpp_type_default_value type)), [], false⟩ := by
  simp only [get_input_attribute]
  rw [hfind]
  simp [hstr, hblank, hmiss]

/-- C5 witness: the empty-string fixture with domain size 5. -/
theorem C5_blank_reference_silent_witness :
    get_input_attribute params_blank_attr "Attr" component_five_points
      .Point .CD_PROP_FLOAT none =
      ⟨.singleValue .CD_PROP_FLOAT 5 (.vfloat 0), [], false⟩ :=
  C5_blank_reference_silent params_blank_attr "Attr" component_five_points
    .Point .CD_PROP_FLOAT none attr_socket rfl rfl rfl rfl (by decide)

/-- C6: on an unbound socket, `get_input_attribute` returns a single-value
broadcast sized to the domain in which every index yields the identical
default value (the supplied default, or the type's zero value when none is
supplied). -/
theorem C6_unbound_socket_broadcast (p : GeoParamsModel) (name : String)
    (component : GeometryComponentModel) (domain : AttributeDomain)
    (type : CustomDataType) (default_value : Option GValue) (i : Nat)
    (hfind : find_available_socket p name = none) :
    get_input_attribute p name component domain type default_value =
      ⟨.singleValue type (component.attribute_domain_size domain)
        (default_value.getD (cpp_type_default_value type)), [], true⟩ ∧
    (get_input_attribute p name component domain type default_value).view.size =
      component.attribute_domain_size domain ∧
    (get_input_attribute p name component domain type default_value).view.get i =
      default_value.getD (cpp_type_default_value type) := by
  have key : get_input_attribute p name component domain type default_value =
      ⟨.singleValue type (component.attribute_domain_size domain)
        (default_value.getD (cpp_type_default_value type)), [], true⟩ := by
    simp only [get_input_attribute]
    rw [hfind]
  exact ⟨key, by rw [key]; rfl, by rw [key]; rfl⟩

/-- C6 witness: a node with no sockets, domain size 5, no supplied
default: index 3 of the returned view is the float zero value. -/
theorem C6_unbound_socket_broadcast_witness :
    get_input_attribute params_no_sockets "Attr" component_five_points
      .Point .CD_PROP_FLOAT none =
      ⟨.singleValue .CD_PROP_FLOAT 5 (.vfloat 0), [], true⟩ ∧
    (get_input_attribute params_no_sockets "Attr" component_five_points
      .Point .CD_PROP_FLOAT none).view.size = 5 ∧
    (get_input_attribute params_no_sockets "Attr" component_five_points
      .Point .CD_PROP_FLOAT none).view.get 3 = .vfloat 0 :=
  C6_unbound_socket_broadcast params_no_sockets "Attr" component_five_points
    .Point .CD_PROP_FLOAT none 3 rfl

/-- C7: reading an input whose value was already extracted
(`can_get_input` false) drives `check_input_access` into the
assertion-failure branch for consumed values rather than the silent
fall-through. -/
theorem C7_double_read_contract_violation (p : GeoParamsModel)
    (identifier : String) (s : SocketModel)
    (requested_type : Option CPPTypeTag)
    (hfound : p.inputs.find? (fun sk => sk.identifier == identifier) = some s)
    (havail : s.available = true)
    (hconsumed : p.can_get identifier = false) :
    check_input_access p identifier requested_type = .valueConsumed ∧
    (check_input_access p identifier requested_type).halts = true := by
  have key : check_input_access p identifier requested_type = .valueConsumed := by
    simp only [check_input_access]
    rw [hfound]
    simp [havail, hconsumed]
  exact ⟨key, by rw [key]; rfl⟩

/-- C7 witness: the consumed-input fixture. -/
theorem C7_double_read_contract_violation_witness :
    check_input_access params_consumed "Attr" none = .valueConsumed ∧
    (check_input_access params_consumed "Attr" none).halts = true :=
  C7_double_read_contract_violation params_consumed "Attr" attr_socket none
    rfl rfl rfl

/-- C9: `get_input_attribute_data_type` maps float/vector/color/boolean
sockets to their data types but has no integer case: an int socket reaches
the assert branch and returns the default type, even though
`get_input_attribute` accepts int sockets and converts their literal to
the requested type. -/
theorem C9_int_socket_data_type (p : GeoParamsModel) (name : String)
    (component : GeometryComponentModel) (domain : AttributeDomain)
    (type : CustomDataType) (default_value : Option GValue)
    (default_type : CustomDataType) (s : SocketModel)
    (hfind : find_available_socket p name = some s)
    (hint : s.stype = .SOCK_INT) :
    get_input_attribute_data_type p name component default_type =
      ⟨default_type, true⟩ ∧
    get_input_attribute p name component domain type default_value =
      ⟨.singleValue type (component.attribute_domain_size domain)
        (convert_to_uninitialized .CD_PROP_INT32 type
          (p.input_value s.identifier)),
       [], false⟩ ∧
    get_input_attribute_data_type params_float_sock "A" component
      .CD_PROP_BOOL = ⟨.CD_PROP_FLOAT, false⟩ ∧
    get_input_attribute_data_type params_vector_sock "A" component
      .CD_PROP_BOOL = ⟨.CD_PROP_FLOAT3, false⟩ ∧
    get_input_attribute_data_type params_color_sock "A" component
      .CD_PROP_BOOL = ⟨.CD_PROP_COLOR, false⟩ ∧
    get_input_attribute_data_type params_boolean_sock "A" component
      .CD_PROP_FLOAT = ⟨.CD_PROP_BOOL, false⟩ := by
  refine ⟨?_, ?_, rfl, rfl, rfl, rfl⟩
  · simp only [get_input_attribute_data_type]
    rw [hfind]
    simp [hint]
  · simp only [get_input_attribute]
    rw [hfind]
    simp [hint]

/-- C9 witness: an int socket bound to the literal 7, requesting a float
attribute of a five-element domain. -/
theorem C9_int_socket_data_type_witness :
    get_input_attribute_data_type params_int_sock "A" component_five_points
      .CD_PROP_FLOAT = ⟨.CD_PROP_FLOAT, true⟩ ∧
    get_input_attribute params_int_sock "A" component_five_points
      .Point .CD_PROP_FLOAT none =
      ⟨.singleValue .CD_PROP_FLOAT 5 (.vfloat 7), [], false⟩ := by
  have h := C9_int_socket_data_type params_int_sock "A" component_five_points
    .Point .CD_PROP_FLOAT none .CD_PROP_FLOAT ⟨"A", "A", .SOCK_INT, true⟩
    rfl rfl
  exact ⟨h.1, h.2.1⟩

end BlenderGeo
